import Mathlib

/-!
Shallow embedding of the two scripts of the kidney-disease MLOps repository:
`src/pipeline.py` (Prefect flow and tasks) and
`src/monitoring/drift_detection.py` (Evidently-based drift monitoring glue).

External collaborators (pandas, Evidently, Prefect, the config loader, the
preprocess/train/evaluate delegates) are modelled as parameters of an explicit
environment; the glue logic itself is translated line by line.  Side effects
(directory creation, HTML/JSON writes, prints, delegate invocations) are
recorded in an explicit event trace.
-/

namespace KidneyMLOps

/-! ## Pipeline embedding (`src/pipeline.py`) -/

/-- A pipeline step: each Prefect task wraps exactly one external delegate
(`preprocess`, `train`, `evaluate`).  A `Step` value in a trace records one
invocation of the corresponding delegate. -/
inductive Step where
  | preprocess
  | train
  | evaluate

deriving instance DecidableEq, Repr for Step

/-- The status mapping returned by `kidney_ml_pipeline`
(`{"preprocessing": ..., "training": ..., "evaluation": ...}`). -/
structure PipelineResults where
  preprocessing : Bool
  training : Bool
  evaluation : Bool

deriving instance DecidableEq, Repr for PipelineResults

/-- `kidney_ml_pipeline(run_preprocessing, run_training, run_evaluation)`:
starts from an all-`False` status mapping, then for each enabled toggle, in
the fixed textual order preprocess, train, evaluate, invokes the task (one
delegate call, appended to the trace) and flips the corresponding flag.
Returns the trace of delegate invocations together with the status mapping. -/
def kidney_ml_pipeline (run_preprocessing run_training run_evaluation : Bool) :
    List Step × PipelineResults :=
  let results0 : PipelineResults := ⟨false, false, false⟩
  let s1 :=
    if run_preprocessing then ([Step.preprocess], { results0 with preprocessing := true })
    else ([], results0)
  let s2 :=
    if run_training then (s1.1 ++ [Step.train], { s1.2 with training := true })
    else s1
  let s3 :=
    if run_evaluation then (s2.1 ++ [Step.evaluate], { s2.2 with evaluation := true })
    else s2
  s3

/-- `training_pipeline()`: always runs train then evaluate, no toggles. -/
def training_pipeline : List Step :=
  [Step.train, Step.evaluate]

/-- Retry policy declared by a `@task(...)` decorator: number of retries and
the declared retry delay in seconds (`none` when no delay is declared). -/
structure TaskPolicy where
  retries : Nat
  retry_delay_seconds : Option Nat

deriving instance DecidableEq, Repr for TaskPolicy

/-- Policy of `preprocess_task`, from `@task(name="preprocess_data", retries=2,
retry_delay_seconds=10)`. -/
def preprocess_task_policy : TaskPolicy := ⟨2, some 10⟩

/-- Policy of `train_task`, from `@task(name="train_model", retries=1)`. -/
def train_task_policy : TaskPolicy := ⟨1, none⟩

/-- Policy of `evaluate_task`, from `@task(name="evaluate_model")`: no retry
declared, so zero retries. -/
def evaluate_task_policy : TaskPolicy := ⟨0, none⟩

/-- Modelled from the spec: the orchestration framework (Prefect) that runs a
task is not part of this repository; per the spec a task with `r` configured
retries makes at most `r + 1` attempts, stopping early on the first success
and re-raising the last failure once attempts are exhausted.  `fuel` is the
number of attempts still allowed, `i` the index of the next attempt; the
delegate is modelled as a function from attempt index to an outcome.  Returns
the final outcome and the total number of attempts made. -/
def runAttemptsAux (delegate : Nat → Except String Unit) :
    Nat → Nat → Except String Unit × Nat
  | 0, i => (.error "no attempt allowed", i)
  | 1, i => (delegate i, i + 1)
  | (n + 2), i =>
    match delegate i with
    | .ok _ => (.ok (), i + 1)
    | .error _ => runAttemptsAux delegate (n + 1) (i + 1)

/-- Modelled from the spec: running a task under its declared retry policy
makes at most `policy.retries + 1` attempts starting at attempt index `0`. -/
def runTaskWithPolicy (policy : TaskPolicy) (delegate : Nat → Except String Unit) :
    Except String Unit × Nat :=
  runAttemptsAux delegate (policy.retries + 1) 0

/-! ## Monitoring embedding (`src/monitoring/drift_detection.py`) -/

/-- A cell value of a pandas column: numeric cells (modelled as rationals) or
string/categorical cells. -/
inductive Value where
  | num (q : ℚ)
  | str (s : String)

deriving instance DecidableEq, Repr for Value

/-- Elementwise effect of `column * factor` on a cell; only numeric cells are
scaled (the code applies it to the configured numeric columns only). -/
def Value.scale (factor : ℚ) : Value → Value
  | .num q => .num (q * factor)
  | .str s => .str s

/-- A pandas DataFrame, modelled column-wise: an ordered association list from
column name to the list of that column's cells. -/
structure DataFrame where
  cols : List (String × List Value)

deriving instance DecidableEq, Repr for DataFrame

/-- The column names of a DataFrame (`df.columns`). -/
def DataFrame.columnNames (df : DataFrame) : List String :=
  df.cols.map Prod.fst

/-- Look up a column by name (`df[col]` as a read). -/
def DataFrame.getCol (df : DataFrame) (c : String) : Option (List Value) :=
  (df.cols.find? (fun p => p.1 = c)).map Prod.snd

/-- `df[col] = df[col].map f`: rewrite the named column in place, elementwise. -/
def DataFrame.mapCol (df : DataFrame) (c : String) (f : Value → Value) : DataFrame :=
  ⟨df.cols.map (fun p => if p.1 = c then (p.1, p.2.map f) else p)⟩

/-- `len(df)`: the number of rows (length of the first column; `0` for a
DataFrame with no columns). -/
def DataFrame.numRows (df : DataFrame) : Nat :=
  match df.cols with
  | [] => 0
  | p :: _ => p.2.length

/-- The configuration mapping returned by `load_config()`: the raw-data path,
the target column name and the numeric/categorical feature lists. -/
structure Config where
  rawPath : String
  target : String
  numeric : List String
  categorical : List String

/-- One entry of `run_result.dict()["metric_results"]`: the stringified metric
identifier `str(metric.get("metric", ""))`, the stringified result
`str(result)`, and the three optional fields read from the `result` dict
(`none` models an absent key). -/
structure MetricEntry where
  metricId : String
  resultStr : String
  dataset_drift : Option Bool
  drift_share : Option ℚ
  number_of_drifted_columns : Option Nat

deriving instance Repr for MetricEntry

/-- Character-list prefix test, used to model Python's substring operator. -/
def charPrefix : List Char → List Char → Bool
  | [], _ => true
  | _ :: _, [] => false
  | a :: as, b :: bs => a == b && charPrefix as bs

/-- Character-list substring test: `needle` occurs somewhere in the list. -/
def charSub (needle : List Char) : List Char → Bool
  | [] => charPrefix needle []
  | c :: t => charPrefix needle (c :: t) || charSub needle t

/-- Python's `needle in hay` substring test. -/
def strContains (hay needle : String) : Bool :=
  charSub needle.data hay.data

/-- The match condition of the extraction loop:
`"DatasetDrift" in metric_id or "dataset_drift" in str(result)`. -/
def driftMatch (m : MetricEntry) : Bool :=
  strContains m.metricId "DatasetDrift" || strContains m.resultStr "dataset_drift"

/-- The three assignments performed for a matching metric:
`result.get("dataset_drift", False)`, `result.get("drift_share", 0.0)`,
`result.get("number_of_drifted_columns", 0)`. -/
def matchedFields (m : MetricEntry) : Option Bool × Option ℚ × Option Nat :=
  (some (m.dataset_drift.getD false), some (m.drift_share.getD 0),
   some (m.number_of_drifted_columns.getD 0))

/-- One iteration of the extraction loop: a matching metric overwrites all
three keys, a non-matching one leaves the accumulator unchanged. -/
def extractStep (acc : Option Bool × Option ℚ × Option Nat) (m : MetricEntry) :
    Option Bool × Option ℚ × Option Nat :=
  if driftMatch m then matchedFields m else acc

/-- The extraction loop over `metric_results`: starts with the three drift keys
absent (`none`); each matching metric (in order) sets all three keys from its
result. -/
def extractDriftFields (metrics : List MetricEntry) :
    Option Bool × Option ℚ × Option Nat :=
  metrics.foldl extractStep (none, none, none)

/-- The external world of the monitoring script: the project root, the parsed
configuration, the raw CSV content, the clock, pandas' seeded fraction
sampling, and the two Evidently report runs (which may raise). -/
structure Env where
  projectRoot : String
  config : Config
  rawData : DataFrame
  now : String
  sample : ℚ → Nat → DataFrame → DataFrame
  runDriftReport : DataFrame → DataFrame → Except String (List MetricEntry)
  runSummaryReport : DataFrame → Except String Unit

/-- `load_reference_data()`: read the raw CSV (its parsed content is part of
the environment); `reference_data if reference_data is not None else
load_reference_data()`. -/
def resolveRef (env : Env) (refData? : Option DataFrame) : DataFrame :=
  refData?.getD env.rawData

/-- One iteration of the numeric-shift loop:
`if col in current_data.columns: current_data[col] = current_data[col] * 1.05`
(with `1.05 = 21/20`). -/
def numShiftStep (df : DataFrame) (col : String) : DataFrame :=
  if df.columnNames.contains col then df.mapCol col (Value.scale (21 / 20)) else df

/-- The numeric-shift loop of the synthetic current dataset:
`for col in numeric_cols:` apply `numShiftStep`. -/
def applyNumShift (numeric : List String) (df : DataFrame) : DataFrame :=
  numeric.foldl numShiftStep df

/-- Resolution of the synthetic current dataset when `current_data is None`:
`reference_data.sample(frac=0.3, random_state=42).copy()`, then the
numeric-shift loop over the configured numeric columns. -/
def synthesizeCurrent (env : Env) (refData : DataFrame) : DataFrame :=
  applyNumShift env.config.numeric (env.sample (3 / 10) 42 refData)

/-- `current_data if current_data is not None else` the synthetic sample. -/
def resolveCurrent (env : Env) (refData : DataFrame) (current? : Option DataFrame) :
    DataFrame :=
  current?.getD (synthesizeCurrent env refData)

/-- The summary dict returned by `generate_drift_report`.  The first four keys
are always set; the three drift keys are set only by the extraction loop
(`none` models an absent key). -/
structure DriftSummary where
  timestamp : String
  reference_samples : Nat
  current_samples : Nat
  report_path : String
  dataset_drift : Option Bool
  drift_share : Option ℚ
  number_of_drifted_columns : Option Nat

deriving instance Repr for DriftSummary

/-- The summary dict returned by `generate_data_summary_report`. -/
structure SummaryResult where
  timestamp : String
  samples : Nat
  report_path : String

deriving instance Repr for SummaryResult

/-- The combined dict returned by `generate_full_monitoring_report`. -/
structure MonitoringResults where
  timestamp : String
  data_drift : DriftSummary
  data_summary : SummaryResult

deriving instance Repr for MonitoringResults

/-- A JSON value, as serialised by `json.dump`; objects keep Python dict
insertion order. -/
inductive J where
  | str (s : String)
  | nat (n : Nat)
  | rat (q : ℚ)
  | bool (b : Bool)
  | obj (fields : List (String × J))

/-- The keys of a JSON object, in order. -/
def J.keys : J → List String
  | .obj l => l.map Prod.fst
  | _ => []

/-- Field lookup in a JSON object. -/
def J.lookup : J → String → Option J
  | .obj l, k => (l.find? (fun p => p.1 = k)).map Prod.snd
  | _, _ => none

/-- JSON shape of the drift summary dict, in insertion order: the four fixed
keys, then each drift key only if the extraction loop set it. -/
def DriftSummary.toJ (s : DriftSummary) : J :=
  J.obj
    ([("timestamp", J.str s.timestamp),
      ("reference_samples", J.nat s.reference_samples),
      ("current_samples", J.nat s.current_samples),
      ("report_path", J.str s.report_path)]
     ++ (match s.dataset_drift with
         | some b => [("dataset_drift", J.bool b)]
         | none => [])
     ++ (match s.drift_share with
         | some q => [("drift_share", J.rat q)]
         | none => [])
     ++ (match s.number_of_drifted_columns with
         | some n => [("number_of_drifted_columns", J.nat n)]
         | none => []))

/-- JSON shape of the data-summary dict. -/
def SummaryResult.toJ (s : SummaryResult) : J :=
  J.obj
    [("timestamp", J.str s.timestamp),
     ("samples", J.nat s.samples),
     ("report_path", J.str s.report_path)]

/-- JSON shape of the combined results dict written to
`monitoring_summary.json`. -/
def MonitoringResults.toJ (r : MonitoringResults) : J :=
  J.obj
    [("timestamp", J.str r.timestamp),
     ("data_drift", r.data_drift.toJ),
     ("data_summary", r.data_summary.toJ)]

/-- Observable side effects of the monitoring functions, in order.  The JSON
write records the serialised content alongside the target path. -/
inductive Event where
  | mkdirReports
  | saveHtml (path : String)
  | printLine (s : String)
  | runDriftCall
  | runSummaryCall
  | writeJsonFile (path : String) (content : J)

/-- Default HTML path of the drift report:
`PROJECT_ROOT / "reports" / "drift_report.html"`. -/
def defaultDriftPath (env : Env) : String :=
  env.projectRoot ++ "/reports/drift_report.html"

/-- Default HTML path of the data-summary report. -/
def defaultSummaryPath (env : Env) : String :=
  env.projectRoot ++ "/reports/data_summary_report.html"

/-- Path of the combined JSON summary:
`PROJECT_ROOT / "reports" / "monitoring_summary.json"`. -/
def monitoringSummaryPath (env : Env) : String :=
  env.projectRoot ++ "/reports/monitoring_summary.json"

/-- `generate_drift_report(current_data, reference_data, output_path)`:
resolves the reference (loading it when absent) and the current data
(synthesizing it when absent), runs the Evidently drift report (which may
raise and then propagates), creates `reports/` and picks the default path only
when `output_path is None`, saves the HTML, prints a confirmation, and builds
the summary dict with the extraction loop's drift fields. -/
def generateDriftReport (env : Env) (current? refData? : Option DataFrame)
    (outputPath? : Option String) : List Event × Except String DriftSummary :=
  let refData := resolveRef env refData?
  let cur := resolveCurrent env refData current?
  match env.runDriftReport refData cur with
  | .error e => ([Event.runDriftCall], .error e)
  | .ok metrics =>
    let mkEvents : List Event :=
      match outputPath? with
      | none => [Event.mkdirReports]
      | some _ => []
    let path :=
      match outputPath? with
      | none => defaultDriftPath env
      | some p => p
    let fields := extractDriftFields metrics
    ([Event.runDriftCall] ++ mkEvents
       ++ [Event.saveHtml path, Event.printLine ("Drift report saved to: " ++ path)],
     .ok
       { timestamp := env.now,
         reference_samples := refData.numRows,
         current_samples := cur.numRows,
         report_path := path,
         dataset_drift := fields.1,
         drift_share := fields.2.1,
         number_of_drifted_columns := fields.2.2 })

/-- `generate_data_summary_report(data, output_path)`: defaults the data to
the reference CSV, runs the Evidently summary report (reference slot absent;
may raise and then propagates), creates `reports/` and picks the default path
only when `output_path is None`, saves the HTML, prints a confirmation, and
returns the summary dict. -/
def generateDataSummaryReport (env : Env) (data? : Option DataFrame)
    (outputPath? : Option String) : List Event × Except String SummaryResult :=
  let d := data?.getD env.rawData
  match env.runSummaryReport d with
  | .error e => ([Event.runSummaryCall], .error e)
  | .ok _ =>
    let mkEvents : List Event :=
      match outputPath? with
      | none => [Event.mkdirReports]
      | some _ => []
    let path :=
      match outputPath? with
      | none => defaultSummaryPath env
      | some p => p
    ([Event.runSummaryCall] ++ mkEvents
       ++ [Event.saveHtml path,
           Event.printLine ("Data summary report saved to: " ++ path)],
     .ok { timestamp := env.now, samples := d.numRows, report_path := path })

/-- The `"=" * 60` banner printed by the orchestrator. -/
def bannerLine : String :=
  String.mk (List.replicate 60 '=')

/-- `generate_full_monitoring_report(current_data, reference_data)`: prints
the opening banner, resolves the reference and current datasets (same default
rules as the drift report), runs the drift report then the data-summary report
in fixed order — both over the resolved current data, both at their default
output paths — and on success writes the combined dict as JSON to
`reports/monitoring_summary.json` and prints the closing banner.  Any error
from either report step propagates, aborting everything after it. -/
def generateFullMonitoringReport (env : Env) (current? refData? : Option DataFrame) :
    List Event × Except String MonitoringResults :=
  let opening :=
    [Event.printLine bannerLine,
     Event.printLine "Generating Comprehensive Monitoring Reports",
     Event.printLine bannerLine]
  let refData := resolveRef env refData?
  let cur := resolveCurrent env refData current?
  let step1 := generateDriftReport env (some cur) (some refData) none
  match step1.2 with
  | .error e =>
    (opening ++ [Event.printLine "\n1. Generating Data Drift Report..."] ++ step1.1,
     .error e)
  | .ok driftSummary =>
    let step2 := generateDataSummaryReport env (some cur) none
    match step2.2 with
    | .error e =>
      (opening ++ [Event.printLine "\n1. Generating Data Drift Report..."] ++ step1.1
         ++ [Event.printLine "\n2. Generating Data Summary Report..."] ++ step2.1,
       .error e)
    | .ok summaryResult =>
      let results : MonitoringResults :=
        { timestamp := env.now, data_drift := driftSummary, data_summary := summaryResult }
      (opening ++ [Event.printLine "\n1. Generating Data Drift Report..."] ++ step1.1
         ++ [Event.printLine "\n2. Generating Data Summary Report..."] ++ step2.1
         ++ [Event.writeJsonFile (monitoringSummaryPath env) (MonitoringResults.toJ results),
             Event.printLine ("\n" ++ bannerLine),
             Event.printLine "Monitoring Complete!",
             Event.printLine ("Summary saved to: " ++ monitoringSummaryPath env),
             Event.printLine bannerLine],
       .ok results)

/-! ## Basic lemmas about the DataFrame operations -/

theorem DataFrame.getCol_mapCol (df : DataFrame) (a c : String) (f : Value → Value) :
    (df.mapCol a f).getCol c =
      if c = a then (df.getCol a).map (List.map f) else df.getCol c := by
  obtain ⟨cols⟩ := df
  induction cols with
  | nil =>
    simp only [DataFrame.mapCol, DataFrame.getCol, List.map_nil, List.find?_nil,
      Option.map_none]
    split <;> rfl
  | cons p rest ih =>
    by_cases hca : c = a
    · subst hca
      by_cases hpc : p.1 = c <;>
        simp_all [DataFrame.mapCol, DataFrame.getCol, List.find?]
    · by_cases hpa : p.1 = a <;> by_cases hpc : p.1 = c <;>
        simp_all [DataFrame.mapCol, DataFrame.getCol, List.find?]

theorem DataFrame.columnNames_mapCol (df : DataFrame) (a : String) (f : Value → Value) :
    (df.mapCol a f).columnNames = df.columnNames := by
  obtain ⟨cols⟩ := df
  simp only [DataFrame.mapCol, DataFrame.columnNames, List.map_map]
  refine List.map_congr_left ?_
  intro p _
  by_cases h : p.1 = a <;> simp [h]

theorem DataFrame.numRows_mapCol (df : DataFrame) (a : String) (f : Value → Value) :
    (df.mapCol a f).numRows = df.numRows := by
  obtain ⟨cols⟩ := df
  cases cols with
  | nil => rfl
  | cons p rest =>
    simp only [DataFrame.mapCol, DataFrame.numRows, List.map_cons]
    by_cases h : p.1 = a <;> simp [h]

theorem DataFrame.getCol_isSome_iff_contains (df : DataFrame) (c : String) :
    (df.getCol c).isSome = df.columnNames.contains c := by
  obtain ⟨cols⟩ := df
  induction cols with
  | nil => rfl
  | cons p rest ih =>
    by_cases hpc : p.1 = c
    · subst hpc
      simp [DataFrame.getCol, DataFrame.columnNames, List.find?]
    · have hcp : ¬c = p.1 := fun h => hpc h.symm
      simp_all [DataFrame.getCol, DataFrame.columnNames, List.find?, List.contains_cons]

theorem numShiftStep_getCol (df : DataFrame) (a c : String) :
    (numShiftStep df a).getCol c =
      if c = a then (df.getCol a).map (List.map (Value.scale (21 / 20)))
      else df.getCol c := by
  by_cases h : df.columnNames.contains a = true
  · unfold numShiftStep
    rw [if_pos h, DataFrame.getCol_mapCol]
  · have hn : df.getCol a = none := by
      cases hg : df.getCol a with
      | none => rfl
      | some v =>
        exfalso
        apply h
        rw [← DataFrame.getCol_isSome_iff_contains, hg]
        rfl
    unfold numShiftStep
    rw [if_neg h]
    by_cases hca : c = a
    · subst hca
      simp [hn]
    · simp [hca]

theorem numShiftStep_columnNames (df : DataFrame) (a : String) :
    (numShiftStep df a).columnNames = df.columnNames := by
  unfold numShiftStep
  split <;> simp [DataFrame.columnNames_mapCol]

theorem numShiftStep_numRows (df : DataFrame) (a : String) :
    (numShiftStep df a).numRows = df.numRows := by
  unfold numShiftStep
  split <;> simp [DataFrame.numRows_mapCol]

theorem applyNumShift_getCol (numeric : List String) (hnd : numeric.Nodup)
    (df : DataFrame) (c : String) :
    (applyNumShift numeric df).getCol c =
      if c ∈ numeric then (df.getCol c).map (List.map (Value.scale (21 / 20)))
      else df.getCol c := by
  induction numeric generalizing df with
  | nil => simp [applyNumShift]
  | cons a rest ih =>
    have hna : a ∉ rest := (List.nodup_cons.mp hnd).1
    have hrest : rest.Nodup := (List.nodup_cons.mp hnd).2
    have hfold : applyNumShift (a :: rest) df = applyNumShift rest (numShiftStep df a) := by
      simp [applyNumShift, List.foldl_cons]
    rw [hfold, ih hrest]
    by_cases hc : c = a
    · subst hc
      simp [hna, numShiftStep_getCol]
    · by_cases hcr : c ∈ rest <;> simp [hc, hcr, numShiftStep_getCol]

theorem applyNumShift_columnNames (numeric : List String) (df : DataFrame) :
    (applyNumShift numeric df).columnNames = df.columnNames := by
  induction numeric generalizing df with
  | nil => rfl
  | cons a rest ih =>
    have hfold : applyNumShift (a :: rest) df = applyNumShift rest (numShiftStep df a) := by
      simp [applyNumShift, List.foldl_cons]
    rw [hfold, ih, numShiftStep_columnNames]

theorem applyNumShift_numRows (numeric : List String) (df : DataFrame) :
    (applyNumShift numeric df).numRows = df.numRows := by
  induction numeric generalizing df with
  | nil => rfl
  | cons a rest ih =>
    have hfold : applyNumShift (a :: rest) df = applyNumShift rest (numShiftStep df a) := by
      simp [applyNumShift, List.foldl_cons]
    rw [hfold, ih, numShiftStep_numRows]

/-! ## The extraction loop computes the fields of the last matching metric -/

theorem foldl_extractStep (metrics : List MetricEntry)
    (init : Option Bool × Option ℚ × Option Nat) :
    metrics.foldl extractStep init =
      (((metrics.filter driftMatch).getLast?).map matchedFields).getD init := by
  induction metrics generalizing init with
  | nil => rfl
  | cons m rest ih =>
    rw [List.foldl_cons, ih]
    by_cases hm : driftMatch m
    · have hstep : extractStep init m = matchedFields m := by
        simp [extractStep, hm]
      rw [hstep]
      have hfil : (m :: rest).filter driftMatch = m :: rest.filter driftMatch := by
        simp [List.filter_cons, hm]
      rw [hfil]
      cases hrf : rest.filter driftMatch with
      | nil => simp
      | cons q l =>
        rw [List.getLast?_cons_cons]
        have : (q :: l).getLast? = some ((q :: l).getLast (by simp)) :=
          List.getLast?_eq_getLast (q :: l) (by simp)
        rw [this]
        simp
    · have hstep : extractStep init m = init := by
        simp [extractStep, hm]
      rw [hstep]
      have hfil : (m :: rest).filter driftMatch = rest.filter driftMatch := by
        simp [List.filter_cons, hm]
      rw [hfil]

theorem extractDriftFields_eq_lastMatch (metrics : List MetricEntry) :
    extractDriftFields metrics =
      (((metrics.filter driftMatch).getLast?).map matchedFields).getD
        (none, none, none) :=
  foldl_extractStep metrics (none, none, none)

/-! ## Resolver reductions and concrete evaluation environments -/

theorem resolveRef_some (env : Env) (x : DataFrame) : resolveRef env (some x) = x :=
  rfl

theorem resolveCurrent_some (env : Env) (d x : DataFrame) :
    resolveCurrent env d (some x) = x :=
  rfl

theorem resolveCurrent_none (env : Env) (d : DataFrame) :
    resolveCurrent env d none = synthesizeCurrent env d :=
  rfl

/-- A concrete environment for evaluating the monitoring functions: a two-row
reference dataset with one numeric and one categorical column, a sampling
function keeping the first row of every column, and report runs that succeed
(the drift run yields no metric results). -/
def sampleEnv : Env :=
  { projectRoot := "proj",
    config :=
      { rawPath := "data/raw/kidney_disease.csv",
        target := "classification",
        numeric := ["age"],
        categorical := ["rbc"] },
    rawData :=
      ⟨[("age", [Value.num 40, Value.num 60]),
        ("rbc", [Value.str "normal", Value.str "abnormal"])]⟩,
    now := "2026-01-01T00:00:00",
    sample := fun _ _ df => ⟨df.cols.map (fun p => (p.1, p.2.take 1))⟩,
    runDriftReport := fun _ _ => .ok [],
    runSummaryReport := fun _ => .ok () }

/-- A metric entry whose stringified identifier mentions `DatasetDrift`, with
the `drift_share` key missing from its result dict. -/
def sampleMetric : MetricEntry :=
  { metricId := "DatasetDriftMetric",
    resultStr := "drift result",
    dataset_drift := some true,
    drift_share := none,
    number_of_drifted_columns := some 2 }

/-- `sampleEnv`, but the drift run yields one `DatasetDrift` metric result. -/
def driftMetricEnv : Env :=
  { sampleEnv with runDriftReport := fun _ _ => .ok [sampleMetric] }

/-- `sampleEnv`, but the drift-report run raises. -/
def driftFailEnv : Env :=
  { sampleEnv with runDriftReport := fun _ _ => .error "drift failure" }

/-- `sampleEnv`, but the data-summary run raises. -/
def summaryFailEnv : Env :=
  { sampleEnv with runSummaryReport := fun _ => .error "summary failure" }

/-- The drift summary produced under `sampleEnv`: the three drift keys are
absent because no metric result matched. -/
def sampleDriftSummary : DriftSummary :=
  { timestamp := "2026-01-01T00:00:00",
    reference_samples := 2,
    current_samples := 1,
    report_path := "proj/reports/drift_report.html",
    dataset_drift := none,
    drift_share := none,
    number_of_drifted_columns := none }

/-- The data-summary result produced under `sampleEnv` by the orchestrator
(over the synthesized one-row current dataset). -/
def sampleSummaryResult : SummaryResult :=
  { timestamp := "2026-01-01T00:00:00",
    samples := 1,
    report_path := "proj/reports/data_summary_report.html" }

/-- The combined results produced under `sampleEnv`. -/
def sampleMonitoringResults : MonitoringResults :=
  { timestamp := "2026-01-01T00:00:00",
    data_drift := sampleDriftSummary,
    data_summary := sampleSummaryResult }

/-- The data-summary result of a standalone default call under `sampleEnv`
(over the two-row reference dataset). -/
def standaloneSummaryResult : SummaryResult :=
  { timestamp := "2026-01-01T00:00:00",
    samples := 2,
    report_path := "proj/reports/data_summary_report.html" }

/-! ## Claims about the pipeline flow -/

/-- Claim C4: calling the full pipeline flow with all three toggles false
returns a status mapping in which the preprocessing, training and evaluation
flags are all false, and invokes none of the preprocess, train or evaluate
delegates (the invocation trace is empty). -/
theorem claim_c4 :
    kidney_ml_pipeline false false false = ([], ⟨false, false, false⟩) := by
  decide

/-- Claim C5: calling the full pipeline flow with only the training toggle
enabled invokes the train delegate exactly once and the preprocess and
evaluate delegates zero times, and returns a status mapping with training true
and preprocessing and evaluation false. -/
theorem claim_c5 :
    kidney_ml_pipeline false true false = ([Step.train], ⟨false, true, false⟩)
    ∧ (kidney_ml_pipeline false true false).1.count Step.train = 1
    ∧ (kidney_ml_pipeline false true false).1.count Step.preprocess = 0
    ∧ (kidney_ml_pipeline false true false).1.count Step.evaluate = 0 := by
  decide

/-- Claim C7: for every combination of toggles, the full pipeline flow
executes the enabled steps in the fixed order preprocess, train, evaluate (its
trace is the enabled-step filter of that fixed order, hence a sublist of it),
every toggle combination is permitted, and the returned status flags equal the
toggles. -/
theorem claim_c7 :
    ∀ rp rt re : Bool,
      (kidney_ml_pipeline rp rt re).1 =
        (if rp then [Step.preprocess] else []) ++ (if rt then [Step.train] else [])
          ++ (if re then [Step.evaluate] else [])
      ∧ (kidney_ml_pipeline rp rt re).1.Sublist [Step.preprocess, Step.train, Step.evaluate]
      ∧ (kidney_ml_pipeline rp rt re).2 = ⟨rp, rt, re⟩ := by
  decide

/-- Claim C6: the declared retry policies are: preprocess retries up to 2
times with a 10-unit delay, train retries up to 1 time, evaluate has no retry;
consequently a train delegate that raises on its first two attempts makes the
train step raise after exactly 2 attempts (1 retry + 1 initial), and a third
attempt never occurs (the outcome is `delegate 1`'s error, independent of the
delegate's behaviour at any later attempt index). -/
theorem claim_c6 (delegate : Nat → Except String Unit) (e0 e1 : String)
    (h0 : delegate 0 = .error e0) (h1 : delegate 1 = .error e1) :
    preprocess_task_policy = ⟨2, some 10⟩
    ∧ train_task_policy = ⟨1, none⟩
    ∧ evaluate_task_policy = ⟨0, none⟩
    ∧ runTaskWithPolicy train_task_policy delegate = (.error e1, 2) := by
  refine ⟨rfl, rfl, rfl, ?_⟩
  simp [runTaskWithPolicy, train_task_policy, runAttemptsAux, h0, h1]

/-- Witness for claim C6: a delegate that always raises `"boom"` raises on
attempts 0 and 1, and the train step stops with that error after 2 attempts. -/
theorem claim_c6_witness :
    preprocess_task_policy = ⟨2, some 10⟩
    ∧ train_task_policy = ⟨1, none⟩
    ∧ evaluate_task_policy = ⟨0, none⟩
    ∧ runTaskWithPolicy train_task_policy (fun _ => .error "boom") = (.error "boom", 2) :=
  claim_c6 (fun _ => .error "boom") "boom" "boom" rfl rfl

/-- `sampleEnv`, but the configured numeric-feature list names the `age`
column twice. -/
def dupEnv : Env :=
  { sampleEnv with
    config :=
      { rawPath := "data/raw/kidney_disease.csv",
        target := "classification",
        numeric := ["age", "age"],
        categorical := ["rbc"] } }

/-! ## Claims about the monitoring functions -/

/-- Counterexample to claim C3 as stated: it quantifies over every
configuration, but under a configuration listing `age` twice the loop
multiplies that column once per mention, yielding `40 * 1.05 * 1.05 = 44.1`
instead of a single 1.05 multiplication of the sampled value (`42`). -/
theorem claim_c3_counterexample :
    "age" ∈ dupEnv.config.numeric
    ∧ (dupEnv.sample (3 / 10) 42 dupEnv.rawData).getCol "age" = some [Value.num 40]
    ∧ (synthesizeCurrent dupEnv dupEnv.rawData).getCol "age" =
        some [Value.num (441 / 10)]
    ∧ (synthesizeCurrent dupEnv dupEnv.rawData).getCol "age" ≠
        ((dupEnv.sample (3 / 10) 42 dupEnv.rawData).getCol "age").map
          (List.map (Value.scale (21 / 20))) := by
  have hsample : (dupEnv.sample (3 / 10) 42 dupEnv.rawData).getCol "age" =
      some [Value.num 40] := rfl
  have hsyn : synthesizeCurrent dupEnv dupEnv.rawData =
      numShiftStep (numShiftStep (dupEnv.sample (3 / 10) 42 dupEnv.rawData) "age")
        "age" := rfl
  refine ⟨by decide, hsample, ?_, ?_⟩
  · rw [hsyn, numShiftStep_getCol, if_pos rfl, numShiftStep_getCol, if_pos rfl, hsample]
    norm_num [Value.scale]
  · rw [hsyn, numShiftStep_getCol, if_pos rfl, numShiftStep_getCol, if_pos rfl, hsample]
    norm_num [Value.scale]

/-- Claim C3: when no current dataset is supplied, the synthesized current
dataset is exactly the 30%-fraction, seed-42 sample of the reference dataset
with every configured numeric column present in the sample scaled by 1.05
(`21/20`) elementwise and every other column unchanged; the derivation is a
pure function of the environment and the reference dataset, hence
deterministic.  (Requires the configured numeric-column list to be free of
duplicates, else the loop would scale a repeated column once per mention.) -/
theorem claim_c3 (env : Env) (refData : DataFrame)
    (hnd : env.config.numeric.Nodup) :
    resolveCurrent env refData none = synthesizeCurrent env refData
    ∧ synthesizeCurrent env refData =
        applyNumShift env.config.numeric (env.sample (3 / 10) 42 refData)
    ∧ (∀ c, c ∈ env.config.numeric →
        (synthesizeCurrent env refData).getCol c =
          ((env.sample (3 / 10) 42 refData).getCol c).map
            (List.map (Value.scale (21 / 20))))
    ∧ (∀ c, c ∉ env.config.numeric →
        (synthesizeCurrent env refData).getCol c =
          (env.sample (3 / 10) 42 refData).getCol c)
    ∧ (synthesizeCurrent env refData).columnNames =
        (env.sample (3 / 10) 42 refData).columnNames := by
  refine ⟨rfl, rfl, ?_, ?_, ?_⟩
  · intro c hc
    rw [synthesizeCurrent, applyNumShift_getCol _ hnd, if_pos hc]
  · intro c hc
    rw [synthesizeCurrent, applyNumShift_getCol _ hnd, if_neg hc]
  · rw [synthesizeCurrent, applyNumShift_columnNames]

/-- Witness for claim C3, at the concrete `sampleEnv` and its reference
dataset. -/
theorem claim_c3_witness :
    sampleEnv.config.numeric.Nodup
    ∧ (resolveCurrent sampleEnv sampleEnv.rawData none =
          synthesizeCurrent sampleEnv sampleEnv.rawData
       ∧ synthesizeCurrent sampleEnv sampleEnv.rawData =
          applyNumShift sampleEnv.config.numeric
            (sampleEnv.sample (3 / 10) 42 sampleEnv.rawData)
       ∧ (∀ c, c ∈ sampleEnv.config.numeric →
          (synthesizeCurrent sampleEnv sampleEnv.rawData).getCol c =
            ((sampleEnv.sample (3 / 10) 42 sampleEnv.rawData).getCol c).map
              (List.map (Value.scale (21 / 20))))
       ∧ (∀ c, c ∉ sampleEnv.config.numeric →
          (synthesizeCurrent sampleEnv sampleEnv.rawData).getCol c =
            (sampleEnv.sample (3 / 10) 42 sampleEnv.rawData).getCol c)
       ∧ (synthesizeCurrent sampleEnv sampleEnv.rawData).columnNames =
          (sampleEnv.sample (3 / 10) 42 sampleEnv.rawData).columnNames) :=
  ⟨by decide, claim_c3 sampleEnv sampleEnv.rawData (by decide)⟩

/-- Counterexample to claim C1 as stated: under `sampleEnv` the drift run
yields no metric results, so no metric matches and the returned summary lacks
the drift-detected, drift-share and drifted-column-count fields entirely (its
serialised form has only the four fixed keys) instead of containing them with
default values. -/
theorem claim_c1_counterexample :
    (generateDriftReport sampleEnv none none none).2 = .ok sampleDriftSummary
    ∧ sampleDriftSummary.dataset_drift = none
    ∧ sampleDriftSummary.drift_share = none
    ∧ sampleDriftSummary.number_of_drifted_columns = none
    ∧ sampleDriftSummary.toJ.keys =
        ["timestamp", "reference_samples", "current_samples", "report_path"] :=
  ⟨rfl, rfl, rfl, rfl, rfl⟩

/-- Claim C1 (amended): the summary returned by `generate_drift_report` takes
its drift-detected, drift-share and drifted-column-count fields from the last
report metric whose stringified identifier contains `DatasetDrift` or whose
stringified result mentions `dataset_drift`; fields missing from that metric's
result default to false, 0.0 and 0 respectively, but when no metric matches
the three fields are absent from the summary (they do not default). -/
theorem claim_c1_amended (env : Env) (current? refData? : Option DataFrame)
    (outputPath? : Option String) (metrics : List MetricEntry)
    (h : env.runDriftReport (resolveRef env refData?)
           (resolveCurrent env (resolveRef env refData?) current?) = .ok metrics) :
    (generateDriftReport env current? refData? outputPath?).2 =
      .ok { timestamp := env.now,
            reference_samples := (resolveRef env refData?).numRows,
            current_samples :=
              (resolveCurrent env (resolveRef env refData?) current?).numRows,
            report_path := outputPath?.getD (defaultDriftPath env),
            dataset_drift :=
              ((((metrics.filter driftMatch).getLast?).map matchedFields).getD
                (none, none, none)).1,
            drift_share :=
              ((((metrics.filter driftMatch).getLast?).map matchedFields).getD
                (none, none, none)).2.1,
            number_of_drifted_columns :=
              ((((metrics.filter driftMatch).getLast?).map matchedFields).getD
                (none, none, none)).2.2 } := by
  cases outputPath? with
  | none => simp [generateDriftReport, h, extractDriftFields_eq_lastMatch]
  | some p => simp [generateDriftReport, h, extractDriftFields_eq_lastMatch]

/-- Witness for claim C1 (amended), under `driftMetricEnv`: one matching
metric whose result lacks `drift_share`, so that field defaults to 0 while the
other two come from the metric. -/
theorem claim_c1_amended_witness :
    driftMetricEnv.runDriftReport (resolveRef driftMetricEnv none)
        (resolveCurrent driftMetricEnv (resolveRef driftMetricEnv none) none) =
      .ok [sampleMetric]
    ∧ (generateDriftReport driftMetricEnv none none none).2 =
      .ok { timestamp := driftMetricEnv.now,
            reference_samples := (resolveRef driftMetricEnv none).numRows,
            current_samples :=
              (resolveCurrent driftMetricEnv (resolveRef driftMetricEnv none) none).numRows,
            report_path := (none : Option String).getD (defaultDriftPath driftMetricEnv),
            dataset_drift :=
              (((([sampleMetric].filter driftMatch).getLast?).map matchedFields).getD
                (none, none, none)).1,
            drift_share :=
              (((([sampleMetric].filter driftMatch).getLast?).map matchedFields).getD
                (none, none, none)).2.1,
            number_of_drifted_columns :=
              (((([sampleMetric].filter driftMatch).getLast?).map matchedFields).getD
                (none, none, none)).2.2 } :=
  ⟨rfl, claim_c1_amended driftMetricEnv none none none [sampleMetric] rfl⟩

/-- Counterexample to claim C9 as stated: under `sampleEnv`, calling either
report generator with an explicit output path performs no directory creation
at all before writing the artifact — the `mkdir` happens only on the
default-path branch. -/
theorem claim_c9_counterexample :
    (generateDriftReport sampleEnv none none (some "custom/drift.html")).1 =
      [Event.runDriftCall, Event.saveHtml "custom/drift.html",
       Event.printLine "Drift report saved to: custom/drift.html"]
    ∧ Event.mkdirReports ∉
        (generateDriftReport sampleEnv none none (some "custom/drift.html")).1
    ∧ (generateDataSummaryReport sampleEnv none (some "custom/summary.html")).1 =
      [Event.runSummaryCall, Event.saveHtml "custom/summary.html",
       Event.printLine "Data summary report saved to: custom/summary.html"]
    ∧ Event.mkdirReports ∉
        (generateDataSummaryReport sampleEnv none (some "custom/summary.html")).1 := by
  refine ⟨rfl, ?_, rfl, ?_⟩ <;> simp [generateDriftReport, generateDataSummaryReport, sampleEnv]

/-- Claim C9 (amended): for both report generators, when the output path is
omitted the `reports/` directory is created (with parents, exist-ok) before
the HTML artifact is written; when the caller supplies an explicit output
path, no directory is created at all. -/
theorem claim_c9_amended (env : Env) (current? refData? data? : Option DataFrame)
    (p : String) (metrics : List MetricEntry)
    (hd : env.runDriftReport (resolveRef env refData?)
        (resolveCurrent env (resolveRef env refData?) current?) = .ok metrics)
    (hs : env.runSummaryReport (data?.getD env.rawData) = .ok ()) :
    (generateDriftReport env current? refData? none).1 =
      [Event.runDriftCall, Event.mkdirReports, Event.saveHtml (defaultDriftPath env),
       Event.printLine ("Drift report saved to: " ++ defaultDriftPath env)]
    ∧ Event.mkdirReports ∉ (generateDriftReport env current? refData? (some p)).1
    ∧ (generateDataSummaryReport env data? none).1 =
      [Event.runSummaryCall, Event.mkdirReports, Event.saveHtml (defaultSummaryPath env),
       Event.printLine ("Data summary report saved to: " ++ defaultSummaryPath env)]
    ∧ Event.mkdirReports ∉ (generateDataSummaryReport env data? (some p)).1 := by
  refine ⟨?_, ?_, ?_, ?_⟩
  · simp [generateDriftReport, hd]
  · simp [generateDriftReport, hd]
  · simp [generateDataSummaryReport, hs]
  · simp [generateDataSummaryReport, hs]

/-- Witness for claim C9 (amended), under `sampleEnv` with explicit path
`"custom/out.html"`. -/
theorem claim_c9_amended_witness :
    sampleEnv.runDriftReport (resolveRef sampleEnv none)
        (resolveCurrent sampleEnv (resolveRef sampleEnv none) none) = .ok []
    ∧ sampleEnv.runSummaryReport ((none : Option DataFrame).getD sampleEnv.rawData) = .ok ()
    ∧ ((generateDriftReport sampleEnv none none none).1 =
        [Event.runDriftCall, Event.mkdirReports,
         Event.saveHtml (defaultDriftPath sampleEnv),
         Event.printLine ("Drift report saved to: " ++ defaultDriftPath sampleEnv)]
       ∧ Event.mkdirReports ∉ (generateDriftReport sampleEnv none none (some "custom/out.html")).1
       ∧ (generateDataSummaryReport sampleEnv none none).1 =
        [Event.runSummaryCall, Event.mkdirReports,
         Event.saveHtml (defaultSummaryPath sampleEnv),
         Event.printLine ("Data summary report saved to: " ++ defaultSummaryPath sampleEnv)]
       ∧ Event.mkdirReports ∉
          (generateDataSummaryReport sampleEnv none (some "custom/out.html")).1) :=
  ⟨rfl, rfl, claim_c9_amended sampleEnv none none none "custom/out.html" [] rfl rfl⟩

/-- Claim C2: every successful run of the combined monitoring orchestrator
writes `monitoring_summary.json` whose parsed content has exactly the keys
`timestamp`, `data_drift` and `data_summary`, the latter two non-empty
mappings; `data_drift` contains `reference_samples` equal to the resolved
reference dataset's row count and `current_samples` equal to the resolved
current dataset's row count. -/
theorem claim_c2 (env : Env) (current? refData? : Option DataFrame)
    (r : MonitoringResults)
    (h : (generateFullMonitoringReport env current? refData?).2 = .ok r) :
    Event.writeJsonFile (monitoringSummaryPath env) (MonitoringResults.toJ r)
        ∈ (generateFullMonitoringReport env current? refData?).1
    ∧ (MonitoringResults.toJ r).keys = ["timestamp", "data_drift", "data_summary"]
    ∧ (MonitoringResults.toJ r).lookup "data_drift" = some r.data_drift.toJ
    ∧ (MonitoringResults.toJ r).lookup "data_summary" = some r.data_summary.toJ
    ∧ r.data_drift.toJ.keys ≠ []
    ∧ r.data_summary.toJ.keys ≠ []
    ∧ r.data_drift.toJ.lookup "reference_samples" =
        some (J.nat (resolveRef env refData?).numRows)
    ∧ r.data_drift.toJ.lookup "current_samples" =
        some (J.nat (resolveCurrent env (resolveRef env refData?) current?).numRows)
    ∧ r.data_drift.reference_samples = (resolveRef env refData?).numRows
    ∧ r.data_drift.current_samples =
        (resolveCurrent env (resolveRef env refData?) current?).numRows := by
  cases hq : env.runDriftReport (resolveRef env refData?)
      (resolveCurrent env (resolveRef env refData?) current?) with
  | error e =>
    exfalso
    simp [generateFullMonitoringReport, generateDriftReport, resolveRef_some,
      resolveCurrent_some, hq] at h
  | ok metrics =>
    cases hs : env.runSummaryReport
        (resolveCurrent env (resolveRef env refData?) current?) with
    | error e =>
      exfalso
      simp [generateFullMonitoringReport, generateDriftReport,
        generateDataSummaryReport, resolveRef_some, resolveCurrent_some, hq, hs] at h
    | ok u =>
      simp only [generateFullMonitoringReport, generateDriftReport,
        generateDataSummaryReport, resolveRef_some, resolveCurrent_some, hq, hs,
        Option.getD_some] at h
      simp only [Except.ok.injEq] at h
      subst h
      refine ⟨?_, rfl, rfl, rfl, ?_, ?_, ?_, ?_, rfl, rfl⟩
      · simp [generateFullMonitoringReport, generateDriftReport,
          generateDataSummaryReport, resolveRef_some, resolveCurrent_some, hq, hs]
      · simp [DriftSummary.toJ, J.keys]
      · simp [SummaryResult.toJ, J.keys]
      · rfl
      · rfl

/-- Witness for claim C2, under `sampleEnv` (the run succeeds with
`sampleMonitoringResults`). -/
theorem claim_c2_witness :
    (generateFullMonitoringReport sampleEnv none none).2 = .ok sampleMonitoringResults
    ∧ (Event.writeJsonFile (monitoringSummaryPath sampleEnv)
          (MonitoringResults.toJ sampleMonitoringResults)
          ∈ (generateFullMonitoringReport sampleEnv none none).1
       ∧ (MonitoringResults.toJ sampleMonitoringResults).keys =
          ["timestamp", "data_drift", "data_summary"]
       ∧ (MonitoringResults.toJ sampleMonitoringResults).lookup "data_drift" =
          some sampleMonitoringResults.data_drift.toJ
       ∧ (MonitoringResults.toJ sampleMonitoringResults).lookup "data_summary" =
          some sampleMonitoringResults.data_summary.toJ
       ∧ sampleMonitoringResults.data_drift.toJ.keys ≠ []
       ∧ sampleMonitoringResults.data_summary.toJ.keys ≠ []
       ∧ sampleMonitoringResults.data_drift.toJ.lookup "reference_samples" =
          some (J.nat (resolveRef sampleEnv none).numRows)
       ∧ sampleMonitoringResults.data_drift.toJ.lookup "current_samples" =
          some (J.nat (resolveCurrent sampleEnv (resolveRef sampleEnv none) none).numRows)
       ∧ sampleMonitoringResults.data_drift.reference_samples =
          (resolveRef sampleEnv none).numRows
       ∧ sampleMonitoringResults.data_drift.current_samples =
          (resolveCurrent sampleEnv (resolveRef sampleEnv none) none).numRows) :=
  ⟨rfl, claim_c2 sampleEnv none none sampleMonitoringResults rfl⟩

/-- Claim C8: in the combined monitoring orchestrator an exception from either
report step propagates and aborts the orchestration: if the drift-report step
raises, its error is returned, the data-summary step is never invoked and the
combined JSON summary is never written; if the data-summary step raises, its
error is returned and the combined JSON summary is never written. -/
theorem claim_c8 (env : Env) (current? refData? : Option DataFrame) (e : String) :
    (env.runDriftReport (resolveRef env refData?)
        (resolveCurrent env (resolveRef env refData?) current?) = .error e →
      (generateFullMonitoringReport env current? refData?).2 = .error e
      ∧ Event.runSummaryCall ∉ (generateFullMonitoringReport env current? refData?).1
      ∧ ∀ p j, Event.writeJsonFile p j ∉
          (generateFullMonitoringReport env current? refData?).1)
    ∧ (∀ metrics,
        env.runDriftReport (resolveRef env refData?)
            (resolveCurrent env (resolveRef env refData?) current?) = .ok metrics →
        env.runSummaryReport (resolveCurrent env (resolveRef env refData?) current?) =
          .error e →
        (generateFullMonitoringReport env current? refData?).2 = .error e
        ∧ ∀ p j, Event.writeJsonFile p j ∉
            (generateFullMonitoringReport env current? refData?).1) := by
  constructor
  · intro hq
    refine ⟨?_, ?_, fun p j => ?_⟩ <;>
      simp [generateFullMonitoringReport, generateDriftReport, resolveRef_some,
        resolveCurrent_some, hq]
  · intro metrics hq hs
    refine ⟨?_, fun p j => ?_⟩ <;>
      simp [generateFullMonitoringReport, generateDriftReport,
        generateDataSummaryReport, resolveRef_some, resolveCurrent_some, hq, hs]

/-- Witness for claim C8: under `driftFailEnv` the drift step raises and the
orchestration aborts before the summary step; under `summaryFailEnv` the
summary step raises and the JSON summary is never written. -/
theorem claim_c8_witness :
    ((generateFullMonitoringReport driftFailEnv none none).2 = .error "drift failure"
     ∧ Event.runSummaryCall ∉ (generateFullMonitoringReport driftFailEnv none none).1
     ∧ ∀ p j, Event.writeJsonFile p j ∉
         (generateFullMonitoringReport driftFailEnv none none).1)
    ∧ ((generateFullMonitoringReport summaryFailEnv none none).2 =
          .error "summary failure"
       ∧ ∀ p j, Event.writeJsonFile p j ∉
           (generateFullMonitoringReport summaryFailEnv none none).1) :=
  ⟨(claim_c8 driftFailEnv none none "drift failure").1 rfl,
   (claim_c8 summaryFailEnv none none "summary failure").2 [] rfl rfl⟩

/-- Claim C10: the orchestrator generates the data-summary report over the
resolved current dataset — the caller-supplied one when given, else the
synthesized sample — so its `samples` field is that current dataset's row
count: a supplied dataset's row count in the caller-supplied arm, and in the
default-synthesis arm the row count of the seed-42 30%-fraction sample (the
numeric shift preserves row count); a standalone default call to the
data-summary generator instead reports the reference dataset's row count, and
the two differ whenever the resolved current row count differs from the
reference's. -/
theorem claim_c10 (env : Env) (current? refData? : Option DataFrame)
    (r : MonitoringResults) (r2 : SummaryResult)
    (h : (generateFullMonitoringReport env current? refData?).2 = .ok r)
    (h2 : (generateDataSummaryReport env none none).2 = .ok r2) :
    r.data_summary.samples =
      (resolveCurrent env (resolveRef env refData?) current?).numRows
    ∧ (current? = none →
        r.data_summary.samples =
          (synthesizeCurrent env (resolveRef env refData?)).numRows)
    ∧ (∀ d, current? = some d → r.data_summary.samples = d.numRows)
    ∧ (synthesizeCurrent env (resolveRef env refData?)).numRows =
        (env.sample (3 / 10) 42 (resolveRef env refData?)).numRows
    ∧ r2.samples = env.rawData.numRows
    ∧ ((resolveCurrent env (resolveRef env refData?) current?).numRows ≠
          env.rawData.numRows →
        r.data_summary.samples ≠ r2.samples) := by
  have h1 : r.data_summary.samples =
      (resolveCurrent env (resolveRef env refData?) current?).numRows := by
    cases hq : env.runDriftReport (resolveRef env refData?)
        (resolveCurrent env (resolveRef env refData?) current?) with
    | error e =>
      exfalso
      simp [generateFullMonitoringReport, generateDriftReport, resolveRef_some,
        resolveCurrent_some, hq] at h
    | ok metrics =>
      cases hs : env.runSummaryReport
          (resolveCurrent env (resolveRef env refData?) current?) with
      | error e =>
        exfalso
        simp [generateFullMonitoringReport, generateDriftReport,
          generateDataSummaryReport, resolveRef_some, resolveCurrent_some, hq, hs] at h
      | ok u =>
        simp only [generateFullMonitoringReport, generateDriftReport,
          generateDataSummaryReport, resolveRef_some, resolveCurrent_some, hq, hs,
          Option.getD_some] at h
        simp only [Except.ok.injEq] at h
        subst h
        rfl
  have h3 : r2.samples = env.rawData.numRows := by
    cases ht : env.runSummaryReport env.rawData with
    | error e =>
      exfalso
      simp [generateDataSummaryReport, ht] at h2
    | ok u =>
      simp only [generateDataSummaryReport, Option.getD_none, ht] at h2
      simp only [Except.ok.injEq] at h2
      subst h2
      rfl
  refine ⟨h1, ?_, ?_, ?_, h3, ?_⟩
  · intro hc
    subst hc
    rw [h1, resolveCurrent_none]
  · intro d hd
    subst hd
    rw [h1, resolveCurrent_some]
  · rw [synthesizeCurrent]
    exact applyNumShift_numRows _ _
  · intro hne
    rw [h1, h3]
    exact hne

/-- A caller-supplied current dataset with three rows, used to exercise the
caller-supplied arm of claim C10. -/
def suppliedCurrent : DataFrame :=
  ⟨[("age", [Value.num 50, Value.num 55, Value.num 65])]⟩

/-- The combined results produced under `sampleEnv` when the caller supplies
`suppliedCurrent`: both reports cover its 3 rows. -/
def suppliedMonitoringResults : MonitoringResults :=
  { timestamp := "2026-01-01T00:00:00",
    data_drift :=
      { timestamp := "2026-01-01T00:00:00",
        reference_samples := 2,
        current_samples := 3,
        report_path := "proj/reports/drift_report.html",
        dataset_drift := none,
        drift_share := none,
        number_of_drifted_columns := none },
    data_summary :=
      { timestamp := "2026-01-01T00:00:00",
        samples := 3,
        report_path := "proj/reports/data_summary_report.html" } }

/-- Witness for claim C10, under `sampleEnv` with a caller-supplied 3-row
current dataset: the orchestrator's data summary covers those 3 rows while
the standalone default call covers the 2 reference rows. -/
theorem claim_c10_witness :
    (generateFullMonitoringReport sampleEnv (some suppliedCurrent) none).2 =
      .ok suppliedMonitoringResults
    ∧ (generateDataSummaryReport sampleEnv none none).2 = .ok standaloneSummaryResult
    ∧ (suppliedMonitoringResults.data_summary.samples =
          (resolveCurrent sampleEnv (resolveRef sampleEnv none)
            (some suppliedCurrent)).numRows
       ∧ ((some suppliedCurrent : Option DataFrame) = none →
          suppliedMonitoringResults.data_summary.samples =
            (synthesizeCurrent sampleEnv (resolveRef sampleEnv none)).numRows)
       ∧ (∀ d, (some suppliedCurrent : Option DataFrame) = some d →
          suppliedMonitoringResults.data_summary.samples = d.numRows)
       ∧ (synthesizeCurrent sampleEnv (resolveRef sampleEnv none)).numRows =
          (sampleEnv.sample (3 / 10) 42 (resolveRef sampleEnv none)).numRows
       ∧ standaloneSummaryResult.samples = sampleEnv.rawData.numRows
       ∧ ((resolveCurrent sampleEnv (resolveRef sampleEnv none)
            (some suppliedCurrent)).numRows ≠ sampleEnv.rawData.numRows →
          suppliedMonitoringResults.data_summary.samples ≠
            standaloneSummaryResult.samples)) :=
  ⟨rfl, rfl,
   claim_c10 sampleEnv (some suppliedCurrent) none suppliedMonitoringResults
     standaloneSummaryResult rfl rfl⟩

end KidneyMLOps
